import Mathlib

/-!
Verification of the sd-zoho-widget credential-resolution and session
management logic against its natural-language specification.

The development shallowly embeds the JavaScript sources:
  - app/setup-api.js        : credential CRUD with permission checks
  - sidedrawer-api.js       : authenticated REST helper (SideDrawerAPI)
  - SESSION-MANAGEMENT.md   : the SideDrawerAuth controller code
    (checkConnection, refreshAccessToken, saveTokens, isTokenExpired)

JavaScript conventions are modeled explicitly: a string-or-null value is an
Option String; JS truthiness of such a value is false for null and for the
empty string; `x || null` normalizes the empty string to null; object spread
merging of headers keeps later keys.  Times are integer milliseconds as in the
source (Date.now()); a NaN produced by arithmetic on an absent number is
modeled as Option.none, and JS comparisons against NaN yield false.
-/

/-- Truthiness of a JS string-or-null value: null and the empty string are falsy. -/
def isTruthy : Option String → Bool
  | none => false
  | some s => s ≠ ""

/-- Models the JS idiom `x || null` on a string-or-null value: the empty string collapses to null. -/
def jsOr : Option String → Option String
  | none => none
  | some s => if s = "" then none else some s

/-- Models the JS idiom `x?.y || ''`: absent becomes the empty string. -/
def jsOrEmpty : Option String → String
  | none => ""
  | some s => s

/-- Helper for strIncludes: does the first list occur as a contiguous block of the second. -/
def charsInfix (n : List Char) : List Char → Bool
  | [] => n.isEmpty
  | c :: rest => n.isPrefixOf (c :: rest) || charsInfix n rest

/-- Models JS `hay.includes(needle)` as a list-infix test on the characters. -/
def strIncludes (hay needle : String) : Bool :=
  charsInfix needle.toList hay.toList

/-- Models JS toLowerCase by a character map (kernel-computable). -/
def strLower (s : String) : String := ⟨s.data.map Char.toLower⟩

/-- Models JS toUpperCase by a character map (kernel-computable). -/
def strUpper (s : String) : String := ⟨s.data.map Char.toUpper⟩

/-- Models JS trim by dropping whitespace on both ends (kernel-computable). -/
def strTrim (s : String) : String :=
  ⟨((s.data.dropWhile Char.isWhitespace).reverse.dropWhile Char.isWhitespace).reverse⟩

/-- Decidable equality for Except values, used to compare modeled API outcomes. -/
instance {ε α : Type} [DecidableEq ε] [DecidableEq α] : DecidableEq (Except ε α) := fun x y =>
  match x, y with
  | .error a, .error b =>
    if h : a = b then .isTrue (by rw [h]) else .isFalse (by intro hc; cases hc; exact h rfl)
  | .error _, .ok _ => .isFalse (by intro hc; cases hc)
  | .ok _, .error _ => .isFalse (by intro hc; cases hc)
  | .ok a, .ok b =>
    if h : a = b then .isTrue (by rw [h]) else .isFalse (by intro hc; cases hc; exact h rfl)

namespace SetupAPI

/-- One record of the SD_Widget_Setup Zoho custom module, fields as stored
(each may be absent). -/
structure ZohoRecord where
  id : String
  clientId : Option String
  environment : Option String
  redirectUri : Option String
  tenantId : Option String
  brandCode : Option String
  isActive : Option Bool
  deriving DecidableEq

/-- Result of ZOHO.CRM.CONFIG.getVariables(): the widget variables. -/
structure WidgetVars where
  client_id : Option String
  environment : Option String
  redirect_uri : Option String
  deriving DecidableEq

/-- Zoho user data returned by getCurrentUser (user?.users?.[0]). -/
structure ZohoUser where
  roleName : Option String
  roleId : Option String
  admin : Option Bool
  profileName : Option String
  profileId : Option String
  deriving DecidableEq

/-- Configuration object passed to saveSetupConfig (dynamic JS object; every
field may be absent). -/
structure ConfigInput where
  clientId : Option String
  environment : Option String
  redirectUri : Option String
  tenantId : Option String
  brandCode : Option String
  isActive : Option Bool
  deriving DecidableEq

/-- The external world the setup API interacts with: mode flag, Zoho SDK and
its responses, and the browser localStorage fallback.  The content of the
localStorage key sd_widget_setup_config is modeled as the parsed JSON value
(JSON.stringify and JSON.parse round-trip on these plain objects). -/
structure World where
  /-- window.self !== window.top inverted: true when not embedded in Zoho. -/
  standalone : Bool
  /-- ZOHO SDK loaded and ZOHO.CRM.CONFIG.getCurrentUser available after the waits. -/
  sdkAvailable : Bool
  /-- getCurrentUser outcome: error when the call throws, otherwise user?.users?.[0]. -/
  currentUser : Except Unit (Option ZohoUser)
  /-- urlParams.get(admin) === true-string. -/
  urlAdmin : Bool
  /-- localStorage.getItem(sd_force_admin) === true-string. -/
  forceAdmin : Bool
  /-- ZOHO.CRM.API.getRecords on SD_Widget_Setup: error when the call throws. -/
  zohoRecords : Except Unit (List ZohoRecord)
  /-- Whether insertRecord and updateRecord return a data record (response?.data?.[0]). -/
  zohoWriteOk : Bool
  /-- Record id assigned by insertRecord for a newly created record. -/
  freshId : String
  /-- Parsed content of localStorage sd_widget_setup_config, none when absent. -/
  localConfig : Option ConfigInput
  /-- Whether localStorage.setItem succeeds (throws on quota or privacy errors otherwise). -/
  localWriteOk : Bool
  /-- getVariables outcome when ZOHO.CRM.CONFIG is reachable; none models an
  unavailable SDK object or a falsy or client_id-less result only via the
  field client_id being absent, so none here means the call path yields no vars. -/
  widgetVars : Option WidgetVars
  deriving DecidableEq

/-- Embeds checkUserHasManageOrgPermission from app/setup-api.js.  Standalone
mode bypasses the check; otherwise the Zoho user is inspected for
administrator indicators, with a manual testing override read from the URL
and localStorage before the indicator checks. -/
def checkUserHasManageOrgPermission (w : World) : Bool :=
  if w.standalone then true
  else if ¬ w.sdkAvailable then false
  else match w.currentUser with
    | .error _ => false
    | .ok none => false
    | .ok (some u) =>
      let role := jsOrEmpty u.roleName
      let roleId := jsOrEmpty u.roleId
      let isAdminFlag := u.admin == some true
      let profile := jsOrEmpty u.profileName
      let profileId := jsOrEmpty u.profileId
      let manualAdmin := w.urlAdmin || w.forceAdmin
      if manualAdmin then true
      else
        let roleLower := strLower role
        let profileLower := strLower profile
        let roleIdUpper := strUpper roleId
        let profileIdUpper := strUpper profileId
        let isAdmin :=
          (roleLower == "administrator") ||
          (roleLower == "admin") ||
          (roleIdUpper == "ADMIN") ||
          strIncludes roleIdUpper "ADMIN" ||
          isAdminFlag ||
          strIncludes profileLower "admin" ||
          strIncludes profileLower "administrator" ||
          strIncludes profileLower "manager" ||
          strIncludes profileLower "management" ||
          strIncludes profileIdUpper "ADMIN" ||
          (profileIdUpper == "1100000000001")
        if ¬ isAdmin && profileId ≠ "" then
          if strIncludes profileIdUpper "ADMIN" || profileId == "1100000000001" then true
          else isAdmin
        else isAdmin

/-- Embeds checkSetupModuleExists: false in standalone mode; otherwise true
exactly when getRecords does not throw. -/
def checkSetupModuleExists (w : World) : Bool :=
  if w.standalone then false
  else match w.zohoRecords with
    | .error _ => false
    | .ok _ => true

/-- Setup configuration as mapped out of the first custom-module record by
getSetupConfig (each field normalized through the JS `|| null`). -/
structure SetupConfig where
  id : String
  clientId : Option String
  environment : Option String
  redirectUri : Option String
  tenantId : Option String
  brandCode : Option String
  isActive : Bool
  deriving DecidableEq

/-- Embeds getSetupConfig: none in standalone mode, when the module is
missing, when getRecords throws, or when no record exists; otherwise the
first record mapped field-by-field with `|| null` normalization and
isActive defaulting to true. -/
def getSetupConfig (w : World) : Option SetupConfig :=
  if w.standalone then none
  else if ¬ checkSetupModuleExists w then none
  else match w.zohoRecords with
    | .error _ => none
    | .ok [] => none
    | .ok (r :: _) =>
      some
        { id := r.id
          clientId := jsOr r.clientId
          environment := jsOr r.environment
          redirectUri := jsOr r.redirectUri
          tenantId := jsOr r.tenantId
          brandCode := jsOr r.brandCode
          isActive := r.isActive ≠ some false }

/-- Credentials object returned by getCredentials. -/
structure Credentials where
  clientId : Option String
  environment : Option String
  redirectUri : Option String
  tenantId : Option String
  brandCode : Option String
  source : String
  deriving DecidableEq

/-- Mapping of a custom-module setup config into the credentials object, as
written in the first branch of getCredentials (no defaulting of any field). -/
def credsOfSetup (cfg : SetupConfig) : Credentials :=
  { clientId := cfg.clientId
    environment := cfg.environment
    redirectUri := cfg.redirectUri
    tenantId := cfg.tenantId
    brandCode := cfg.brandCode
    source := "custom_module" }

/-- Mapping of the widget variables into the credentials object, as written in
the second branch of getCredentials: environment defaults to sandbox. -/
def credsOfVars (v : WidgetVars) : Credentials :=
  { clientId := v.client_id
    environment := some ((jsOr v.environment).getD "sandbox")
    redirectUri := v.redirect_uri
    tenantId := none
    brandCode := none
    source := "widget_variables" }

/-- Mapping of the parsed localStorage config into the credentials object, as
written in the standalone branch of getCredentials. -/
def credsOfLocal (c : ConfigInput) : Credentials :=
  { clientId := c.clientId
    environment := some ((jsOr c.environment).getD "sandbox")
    redirectUri := c.redirectUri
    tenantId := jsOr c.tenantId
    brandCode := jsOr c.brandCode
    source := "localStorage" }

/-- Embeds getCredentials from app/setup-api.js, keeping the source order of
its branches.  Standalone mode returns early with null; the custom module is
consulted first, then the widget variables (guarded by not-standalone), then
a localStorage branch guarded by standalone that the early return makes
unreachable. -/
def getCredentials (w : World) : Option Credentials :=
  if w.standalone then none
  else
    let fromModule :=
      match getSetupConfig w with
      | some cfg => if isTruthy cfg.clientId then some (credsOfSetup cfg) else none
      | none => none
    match fromModule with
    | some creds => some creds
    | none =>
      let fromVars :=
        if ¬ w.standalone then
          match w.widgetVars with
          | some v => if isTruthy v.client_id then some (credsOfVars v) else none
          | none => none
        else none
      match fromVars with
      | some creds => some creds
      | none =>
        if w.standalone then
          match w.localConfig with
          | some c => if isTruthy c.clientId then some (credsOfLocal c) else none
          | none => none
        else none

/-- Errors thrown by saveSetupConfig. -/
inductive SaveError where
  | localStorageFailed
  | permissionDenied
  | clientIdRequired
  | environmentInvalid
  | redirectUriRequired
  | moduleMissing
  | saveFailed
  deriving DecidableEq

/-- Saved configuration object returned by saveSetupConfig in the Zoho path. -/
structure SavedConfig where
  id : String
  clientId : Option String
  environment : Option String
  redirectUri : Option String
  tenantId : Option String
  brandCode : Option String
  isActive : Bool
  deriving DecidableEq

/-- Return value of saveSetupConfig: the standalone branch returns the input
object as-is, the Zoho branch returns the mapped saved record. -/
inductive SaveResult where
  | rawConfig (c : ConfigInput)
  | saved (s : SavedConfig)
  deriving DecidableEq

/-- Validated field data prepared for the Zoho API by saveSetupConfig. -/
structure SetupData where
  clientId : String
  environment : String
  redirectUri : String
  tenantId : Option String
  brandCode : Option String
  isActive : Bool
  deriving DecidableEq

/-- Record written to the custom module for given setup data and record id. -/
def recordOfData (id : String) (d : SetupData) : ZohoRecord :=
  { id := id
    clientId := some d.clientId
    environment := some d.environment
    redirectUri := some d.redirectUri
    tenantId := d.tenantId
    brandCode := d.brandCode
    isActive := some d.isActive }

/-- Embeds saveSetupConfig from app/setup-api.js.  Standalone mode writes the
raw config to localStorage and returns it; the Zoho path checks permission
first, validates the required fields, requires the module, and then updates
the existing record or inserts a new one. -/
def saveSetupConfig (w : World) (c : ConfigInput) : Except SaveError SaveResult × World :=
  if w.standalone then
    if w.localWriteOk then
      (.ok (.rawConfig c), { w with localConfig := some c })
    else
      (.error .localStorageFailed, w)
  else
    if ¬ checkUserHasManageOrgPermission w then
      (.error .permissionDenied, w)
    else if ¬ (isTruthy c.clientId && strTrim (jsOrEmpty c.clientId) ≠ "") then
      (.error .clientIdRequired, w)
    else if ¬ (isTruthy c.environment &&
        (strLower (jsOrEmpty c.environment) == "sandbox" ||
         strLower (jsOrEmpty c.environment) == "production")) then
      (.error .environmentInvalid, w)
    else if ¬ (isTruthy c.redirectUri && strTrim (jsOrEmpty c.redirectUri) ≠ "") then
      (.error .redirectUriRequired, w)
    else if ¬ checkSetupModuleExists w then
      (.error .moduleMissing, w)
    else
      let d : SetupData :=
        { clientId := strTrim (jsOrEmpty c.clientId)
          environment := strLower (jsOrEmpty c.environment)
          redirectUri := strTrim (jsOrEmpty c.redirectUri)
          tenantId := jsOr (c.tenantId.map strTrim)
          brandCode := jsOr (c.brandCode.map strTrim)
          isActive := c.isActive ≠ some false }
      match getSetupConfig w with
      | some existing =>
        if existing.id ≠ "" then
          if w.zohoWriteOk then
            let newRec := recordOfData existing.id d
            let newRecords := (w.zohoRecords.toOption.getD []).map
              (fun r => if r.id = existing.id then newRec else r)
            (.ok (.saved
              { id := newRec.id
                clientId := some d.clientId
                environment := some d.environment
                redirectUri := some d.redirectUri
                tenantId := d.tenantId
                brandCode := d.brandCode
                isActive := d.isActive }),
             { w with zohoRecords := .ok newRecords })
          else
            (.error .saveFailed, w)
        else
          saveInsert w d
      | none => saveInsert w d
where
  /-- Insert path shared by the no-record and blank-id cases. -/
  saveInsert (w : World) (d : SetupData) : Except SaveError SaveResult × World :=
    if w.zohoWriteOk then
      let newRec := recordOfData w.freshId d
      let newRecords := (w.zohoRecords.toOption.getD []) ++ [newRec]
      (.ok (.saved
        { id := newRec.id
          clientId := some d.clientId
          environment := some d.environment
          redirectUri := some d.redirectUri
          tenantId := d.tenantId
          brandCode := d.brandCode
          isActive := d.isActive }),
       { w with zohoRecords := .ok newRecords })
    else
      (.error .saveFailed, w)

end SetupAPI

namespace SideDrawerAuth

/-- Access-token record stored in the Zoho session (sdSession) by saveTokens.
The expiresAt of none models the NaN produced when expires_in is absent. -/
structure SessionData where
  accessToken : Option String
  expiresAt : Option Int
  deriving DecidableEq

/-- Dual token storage of the controller: the Zoho-session record holding the
access token, and the refresh token held in durable localStorage. -/
structure AuthStore where
  session : Option SessionData
  refreshToken : Option String
  deriving DecidableEq

/-- Token endpoint JSON body as parsed by response.json() (every field may be
absent, as in an OAuth error body). -/
structure TokenData where
  access_token : Option String
  refresh_token : Option String
  expires_in : Option Int
  deriving DecidableEq

/-- Outcome of the token-endpoint fetch: the fetch itself may throw, and the
body may fail to parse as JSON (response.json() throws); otherwise an HTTP
status and the parsed body are available.  The source never reads the
status, but the model carries it so that non-2xx responses can be stated. -/
inductive FetchResult where
  | networkError
  | response (status : Nat) (body : Option TokenData)
  deriving DecidableEq

/-- Buffer time of isTokenExpired: five minutes in milliseconds. -/
def bufferTime : Int := 5 * 60 * 1000

/-- Embeds isTokenExpired from SESSION-MANAGEMENT.md: Date.now() is at or past
expiresAt minus the buffer. -/
def isTokenExpired (now expiresAt : Int) : Bool :=
  now ≥ expiresAt - bufferTime

/-- Expiry test applied to a session record whose expiresAt may be NaN
(modeled as none): every JS comparison against NaN is false, so a NaN
expiresAt is reported not expired. -/
def sessionExpired (now : Int) (s : SessionData) : Bool :=
  match s.expiresAt with
  | some t => isTokenExpired now t
  | none => false

/-- Embeds saveTokens: the access token and computed expiresAt go to the Zoho
session; the refresh token is written only when the response carries one,
otherwise the stored one is kept. -/
def saveTokens (now : Int) (td : TokenData) (st : AuthStore) : AuthStore :=
  { session := some
      { accessToken := td.access_token
        expiresAt := td.expires_in.map (fun e => now + e * 1000) }
    refreshToken := if isTruthy td.refresh_token then td.refresh_token else st.refreshToken }

/-- Disconnect clears both token halves (SESSION-MANAGEMENT.md: the refresh
failure handler and the disconnect test both leave no stored tokens). -/
def clearTokens : AuthStore :=
  { session := none, refreshToken := none }

/-- Connection status shown after a controller step. -/
inductive ConnStatus where
  | connected
  | disconnected
  deriving DecidableEq

/-- Result of a controller step: the status displayed, how many calls were
made to the token endpoint, and the resulting token storage. -/
structure StepResult where
  status : ConnStatus
  tokenCalls : Nat
  store : AuthStore
  deriving DecidableEq

/-- Embeds refreshAccessToken from SESSION-MANAGEMENT.md.  With no refresh
token it shows disconnected.  Otherwise it fetches the token endpoint once;
if the fetch or the JSON parse throws, the catch block disconnects (clearing
both token halves); otherwise the parsed body is saved via saveTokens and
the connected status is shown.  The HTTP status of the response is never
inspected. -/
def refreshAccessToken (now : Int) (st : AuthStore) (fr : FetchResult) : StepResult :=
  if ¬ isTruthy st.refreshToken then
    { status := .disconnected, tokenCalls := 0, store := st }
  else
    match fr with
    | .networkError =>
      { status := .disconnected, tokenCalls := 1, store := clearTokens }
    | .response _ none =>
      { status := .disconnected, tokenCalls := 1, store := clearTokens }
    | .response _ (some td) =>
      { status := .connected, tokenCalls := 1, store := saveTokens now td st }

/-- Embeds checkConnection from SESSION-MANAGEMENT.md: a stored, unexpired
session shows connected with no network call; otherwise a stored refresh
token triggers refreshAccessToken; otherwise disconnected. -/
def checkConnection (now : Int) (st : AuthStore) (fr : FetchResult) : StepResult :=
  match st.session with
  | some s =>
    if ¬ sessionExpired now s then
      { status := .connected, tokenCalls := 0, store := st }
    else if isTruthy st.refreshToken then
      refreshAccessToken now st fr
    else
      { status := .disconnected, tokenCalls := 0, store := st }
  | none =>
    if isTruthy st.refreshToken then
      refreshAccessToken now st fr
    else
      { status := .disconnected, tokenCalls := 0, store := st }

end SideDrawerAuth

namespace SideDrawerAPI

/-- Token storage read by the API helper: localStorage values for the access
token and the parsed token expiry (none when absent or empty). -/
structure ApiStore where
  accessToken : Option String
  tokenExpiry : Option Int
  deriving DecidableEq

/-- Embeds SideDrawerAPI.isAuthenticated: false when the token or expiry is
missing, otherwise Date.now() strictly before the stored expiry. -/
def isAuthenticated (now : Int) (s : ApiStore) : Bool :=
  match s.tokenExpiry with
  | none => false
  | some e => isTruthy s.accessToken && now < e

/-- Merge of the default headers with caller-supplied headers by JS object
spread: a caller key overrides the default with the same name. -/
def mergeHeaders (dflt extra : List (String × String)) : List (String × String) :=
  dflt.filter (fun p => ¬ (extra.map Prod.fst).contains p.fst) ++ extra

/-- Start of SideDrawerAPI.request: either the not-authenticated error is
thrown before any network I/O, or the fetch is issued with the merged
headers.  Handling of the HTTP response after the fetch does not bear on
the stated claims and is outside the embedding. -/
inductive RequestStart where
  | authError
  | fetchIssued (headers : List (String × String))
  deriving DecidableEq

/-- Embeds the pre-fetch logic of SideDrawerAPI.request: the guard tests only
the presence (truthiness) of the stored access token, never the expiry, and
the fetch carries the Bearer header merged with the caller options. -/
def request (s : ApiStore) (optHeaders : List (String × String)) : RequestStart :=
  match s.accessToken with
  | none => .authError
  | some tok =>
    if tok = "" then .authError
    else
      .fetchIssued (mergeHeaders
        [("Authorization", "Bearer " ++ tok), ("Content-Type", "application/json")]
        optHeaders)

end SideDrawerAPI

open SetupAPI SideDrawerAuth SideDrawerAPI

/-- Zoho user with no administrator indicator: plain role, admin flag false,
plain profile. -/
def nonAdminUser : ZohoUser :=
  { roleName := some "Standard", roleId := some "role1", admin := some false
    profileName := some "Standard", profileId := some "p1" }

/-- Pre-existing shared configuration record of the custom module. -/
def baseRecord : ZohoRecord :=
  { id := "rec1", clientId := some "OLD", environment := some "sandbox"
    redirectUri := some "https://old", tenantId := none, brandCode := none
    isActive := some true }

/-- Embedded-mode world where a non-admin user has set the admin URL
parameter (the manual testing override of the permission check). -/
def overrideWorld : World :=
  { standalone := false, sdkAvailable := true, currentUser := .ok (some nonAdminUser)
    urlAdmin := true, forceAdmin := false, zohoRecords := .ok [baseRecord]
    zohoWriteOk := true, freshId := "new1", localConfig := none, localWriteOk := true
    widgetVars := none }

/-- Embedded-mode world with the same non-admin user and no override set. -/
def noAdminWorld : World :=
  { overrideWorld with urlAdmin := false }

/-- Well-formed configuration input. -/
def validConfig : ConfigInput :=
  { clientId := some "A", environment := some "sandbox", redirectUri := some "https://r"
    tenantId := none, brandCode := none, isActive := none }

/-- Configuration input that fails every validation rule of the Zoho path. -/
def junkConfig : ConfigInput :=
  { clientId := some "", environment := some "staging", redirectUri := none
    tenantId := none, brandCode := none, isActive := none }

/-- Shared configuration record carrying a clientId but no redirect URI. -/
def noRedirectRecord : ZohoRecord :=
  { id := "rec1", clientId := some "A", environment := some "sandbox"
    redirectUri := none, tenantId := none, brandCode := none, isActive := some true }

/-- Embedded-mode world whose shared config has clientId A and no redirect
URI, while the widget variables offer clientId B with a redirect URI. -/
def mergeWorld : World :=
  { standalone := false, sdkAvailable := true, currentUser := .ok none
    urlAdmin := false, forceAdmin := false, zohoRecords := .ok [noRedirectRecord]
    zohoWriteOk := true, freshId := "n", localConfig := none, localWriteOk := true
    widgetVars := some
      { client_id := some "B", environment := some "sandbox", redirect_uri := some "https://r" } }

/-- Embedded-mode world whose only source is a shared config with clientId A
and no redirect URI. -/
def noRedirectWorld : World :=
  { mergeWorld with widgetVars := none }

/-- Shared configuration record carrying a clientId but no environment. -/
def noEnvRecord : ZohoRecord :=
  { id := "rec1", clientId := some "A", environment := none
    redirectUri := some "https://r", tenantId := none, brandCode := none
    isActive := some true }

/-- Embedded-mode world whose only source is a shared config with an unset
environment field. -/
def noEnvWorld : World :=
  { noRedirectWorld with zohoRecords := .ok [noEnvRecord] }

/-- Embedded-mode world with no credential source at all. -/
def emptyWorld : World :=
  { noRedirectWorld with zohoRecords := .ok [] }

/-- Standalone-mode world (local development, not embedded in Zoho). -/
def standaloneWorld : World :=
  { standalone := true, sdkAvailable := false, currentUser := .ok none
    urlAdmin := false, forceAdmin := false, zohoRecords := .error ()
    zohoWriteOk := false, freshId := "n", localConfig := none, localWriteOk := true
    widgetVars := none }

/-- OAuth error body of a failed refresh: parseable JSON with no token fields. -/
def errorBody : TokenData :=
  { access_token := none, refresh_token := none, expires_in := none }

/-- Token storage holding only a refresh token. -/
def refreshOnlyStore : AuthStore :=
  { session := none, refreshToken := some "r" }

/-- Token storage holding a session that is far from expiry. -/
def freshSessionStore : AuthStore :=
  { session := some { accessToken := some "t", expiresAt := some 1000000 }
    refreshToken := none }

/-- Empty token storage. -/
def emptyAuthStore : AuthStore :=
  { session := none, refreshToken := none }

/-- API token storage whose access token expired at time 0. -/
def expiredApiStore : ApiStore :=
  { accessToken := some "t1", tokenExpiry := some 0 }

/-- API token storage with no access token at all. -/
def noTokenApiStore : ApiStore :=
  { accessToken := none, tokenExpiry := none }

/-- Whether the shared configuration record supplies a truthy clientId. -/
def moduleHasClientId (w : World) : Bool :=
  match getSetupConfig w with
  | some cfg => isTruthy cfg.clientId
  | none => false

/-- Whether the widget variables supply a truthy client_id. -/
def varsHaveClientId (w : World) : Bool :=
  match w.widgetVars with
  | some v => isTruthy v.client_id
  | none => false

/-- Widget variables with a client id but no environment. -/
def varsNoEnv : WidgetVars :=
  { client_id := some "B", environment := none, redirect_uri := some "https://r" }

/-- Embedded-mode world whose only credential source is the widget variables,
which leave the environment unset. -/
def varsOnlyWorld : World :=
  { mergeWorld with zohoRecords := .ok [], widgetVars := some varsNoEnv }

/-- Claim C1: the code at its failing input.  A refresh attempt whose token
endpoint answers with HTTP 400 and a parseable JSON error body (carrying no
tokens) is treated as a success: the controller shows connected, overwrites
the stored session with an empty access token, and keeps the refresh token,
instead of failing, clearing both token halves and disconnecting. -/
theorem refresh_non2xx_treated_as_success :
    refreshAccessToken 0 refreshOnlyStore (.response 400 (some errorBody)) =
      { status := .connected, tokenCalls := 1
        store := { session := some { accessToken := none, expiresAt := none }
                   refreshToken := some "r" } } ∧
    (refreshAccessToken 0 refreshOnlyStore (.response 400 (some errorBody))).store ≠
      clearTokens := by
  decide

/-- Claim C2 counterexample: a user with no administrator indicator (plain
role and profile, admin flag false) is denied by the permission check, yet
the same user with the admin URL parameter set passes it, and an embedded
saveSetupConfig call then succeeds and rewrites the shared record, instead
of throwing a permission error and leaving the record unchanged. -/
theorem saveSetupConfig_override_counterexample :
    checkUserHasManageOrgPermission noAdminWorld = false ∧
    checkUserHasManageOrgPermission overrideWorld = true ∧
    (saveSetupConfig overrideWorld validConfig).1 =
      .ok (.saved
        { id := "rec1", clientId := some "A", environment := some "sandbox"
          redirectUri := some "https://r", tenantId := none, brandCode := none
          isActive := true }) ∧
    (saveSetupConfig overrideWorld validConfig).2.zohoRecords ≠
      overrideWorld.zohoRecords := by
  decide

/-- Claim C2 amended: in embedded mode, whenever the permission check denies
the caller (in particular for every user with no administrator indicator and
no manual admin override), saveSetupConfig throws the permission error and
the whole world, including the stored shared-configuration record, is left
unchanged. -/
theorem saveSetupConfig_denied_unchanged :
    ∀ (w : World) (c : ConfigInput), w.standalone = false →
      checkUserHasManageOrgPermission w = false →
      saveSetupConfig w c = (.error .permissionDenied, w) := by
  intro w c hs hp
  simp [saveSetupConfig, hs, hp]

/-- Witness for the amended C2 theorem at the concrete non-admin user. -/
theorem saveSetupConfig_denied_unchanged_witness :
    saveSetupConfig noAdminWorld validConfig = (.error .permissionDenied, noAdminWorld) :=
  saveSetupConfig_denied_unchanged noAdminWorld validConfig rfl (by decide)

/-- Claim C3 counterexample: with a shared config providing clientId A but no
redirect URI, and widget variables providing clientId B with a redirect URI,
resolution returns the shared record whole: clientId A (as the claim
predicts) but redirectUri null, although the next source offered one — so
the merge is not field-by-field first-non-empty. -/
theorem getCredentials_fieldwise_counterexample :
    mergeWorld.widgetVars =
      some { client_id := some "B", environment := some "sandbox"
             redirect_uri := some "https://r" } ∧
    (getCredentials mergeWorld).map Credentials.clientId = some (some "A") ∧
    (getCredentials mergeWorld).map Credentials.redirectUri = some none := by
  decide

/-- Claim C3 amended: credential resolution is all-or-nothing per source, in
order shared configuration record then widget variables (URL query
parameters and, in embedded mode, local fallback storage are not consulted):
the first source with a non-empty clientId supplies the entire returned
configuration; in particular a shared config with clientId A wins over any
clientId B offered elsewhere. -/
theorem getCredentials_source_priority :
    ∀ w : World, w.standalone = false →
      (∀ cfg, getSetupConfig w = some cfg → isTruthy cfg.clientId = true →
        getCredentials w = some (credsOfSetup cfg)) ∧
      (∀ v, w.widgetVars = some v → isTruthy v.client_id = true →
        moduleHasClientId w = false →
        getCredentials w = some (credsOfVars v)) := by
  intro w hs
  constructor
  · intro cfg hcfg ht
    simp [getCredentials, hs, hcfg, ht]
  · intro v hv htv hmod
    cases hcfg : getSetupConfig w with
    | none => simp [getCredentials, hs, hcfg, hv, htv]
    | some cfg =>
      have : isTruthy cfg.clientId = false := by
        simpa [moduleHasClientId, hcfg] using hmod
      simp [getCredentials, hs, hcfg, hv, htv, this]

/-- Witness for the amended C3 theorem: the shared config of the concrete
world wins whole, with clientId A. -/
theorem getCredentials_source_priority_witness :
    getCredentials mergeWorld = some (credsOfSetup
      { id := "rec1", clientId := some "A", environment := some "sandbox"
        redirectUri := none, tenantId := none, brandCode := none, isActive := true }) :=
  (getCredentials_source_priority mergeWorld rfl).1 _ (by decide) (by decide)

/-- Claim C4 counterexample: a shared config carrying a clientId but no
redirect URI resolves successfully with redirectUri null, where the claim
requires resolution to fail whenever redirectUri cannot be resolved from any
source. -/
theorem getCredentials_missing_redirect_counterexample :
    getCredentials noRedirectWorld =
      some { clientId := some "A", environment := some "sandbox", redirectUri := none
             tenantId := none, brandCode := none, source := "custom_module" } ∧
    (getCredentials noRedirectWorld).map Credentials.redirectUri = some none := by
  decide

/-- Claim C4 amended: embedded-mode credential resolution succeeds exactly
when some source supplies a non-empty clientId, and every successful
resolution carries a non-empty clientId; the redirect URI is not checked and
may be absent in a successful resolution. -/
theorem getCredentials_success_iff_clientId :
    ∀ w : World, w.standalone = false →
      ((getCredentials w).isSome = (moduleHasClientId w || varsHaveClientId w)) ∧
      (∀ c, getCredentials w = some c → isTruthy c.clientId = true) := by
  intro w hs
  cases hcfg : getSetupConfig w with
  | some cfg =>
    cases htc : isTruthy cfg.clientId with
    | true =>
      constructor
      · simp [getCredentials, moduleHasClientId, hs, hcfg, htc]
      · intro c hc
        simp [getCredentials, hs, hcfg, htc] at hc
        simp [← hc, credsOfSetup, htc]
    | false =>
      cases hv : w.widgetVars with
      | some v =>
        cases htv : isTruthy v.client_id with
        | true =>
          constructor
          · simp [getCredentials, moduleHasClientId, varsHaveClientId, hs, hcfg, htc, hv, htv]
          · intro c hc
            simp [getCredentials, hs, hcfg, htc, hv, htv] at hc
            simp [← hc, credsOfVars, htv]
        | false =>
          constructor
          · simp [getCredentials, moduleHasClientId, varsHaveClientId, hs, hcfg, htc, hv, htv]
          · intro c hc
            simp [getCredentials, hs, hcfg, htc, hv, htv] at hc
      | none =>
        constructor
        · simp [getCredentials, moduleHasClientId, varsHaveClientId, hs, hcfg, htc, hv]
        · intro c hc
          simp [getCredentials, hs, hcfg, htc, hv] at hc
  | none =>
    cases hv : w.widgetVars with
    | some v =>
      cases htv : isTruthy v.client_id with
      | true =>
        constructor
        · simp [getCredentials, moduleHasClientId, varsHaveClientId, hs, hcfg, hv, htv]
        · intro c hc
          simp [getCredentials, hs, hcfg, hv, htv] at hc
          simp [← hc, credsOfVars, htv]
      | false =>
        constructor
        · simp [getCredentials, moduleHasClientId, varsHaveClientId, hs, hcfg, hv, htv]
        · intro c hc
          simp [getCredentials, hs, hcfg, hv, htv] at hc
    | none =>
      constructor
      · simp [getCredentials, moduleHasClientId, varsHaveClientId, hs, hcfg, hv]
      · intro c hc
        simp [getCredentials, hs, hcfg, hv] at hc

/-- Witness for the amended C4 theorem: a world with no source resolves to
none, and the concrete successful resolution carries a non-empty clientId. -/
theorem getCredentials_success_iff_clientId_witness :
    (getCredentials emptyWorld).isSome =
      (moduleHasClientId emptyWorld || varsHaveClientId emptyWorld) ∧
    isTruthy (Credentials.clientId
      { clientId := some "A", environment := some "sandbox", redirectUri := none
        tenantId := none, brandCode := none, source := "custom_module" }) = true :=
  ⟨(getCredentials_success_iff_clientId emptyWorld rfl).1,
   (getCredentials_success_iff_clientId noRedirectWorld rfl).2 _ (by decide)⟩

/-- Claim C5 counterexample: a shared config with a clientId and an unset
environment resolves with environment null, not the sandbox default the
claim promises for every source. -/
theorem getCredentials_env_default_counterexample :
    (getCredentials noEnvWorld).map Credentials.environment = some none := by
  decide

/-- Claim C5 amended: the sandbox default applies to the widget-variables
source (and the localStorage mapping), but credentials resolved from the
shared configuration record carry its environment verbatim, possibly
unset. -/
theorem getCredentials_env_default_by_source :
    ∀ w : World, w.standalone = false →
      (∀ cfg, getSetupConfig w = some cfg → isTruthy cfg.clientId = true →
        (getCredentials w).map Credentials.environment = some cfg.environment) ∧
      (∀ v, w.widgetVars = some v → isTruthy v.client_id = true →
        moduleHasClientId w = false →
        (getCredentials w).map Credentials.environment =
          some (some ((jsOr v.environment).getD "sandbox"))) := by
  intro w hs
  constructor
  · intro cfg hcfg ht
    simp [getCredentials, hs, hcfg, ht, credsOfSetup]
  · intro v hv htv hmod
    cases hcfg : getSetupConfig w with
    | none => simp [getCredentials, hs, hcfg, hv, htv, credsOfVars]
    | some cfg =>
      have : isTruthy cfg.clientId = false := by
        simpa [moduleHasClientId, hcfg] using hmod
      simp [getCredentials, hs, hcfg, hv, htv, this, credsOfVars]

/-- Witness for the amended C5 theorem: verbatim pass-through of the unset
shared-config environment, and the sandbox default for the widget-variables
source. -/
theorem getCredentials_env_default_by_source_witness :
    (getCredentials noEnvWorld).map Credentials.environment = some none ∧
    (getCredentials varsOnlyWorld).map Credentials.environment = some (some "sandbox") :=
  ⟨by
    have h := (getCredentials_env_default_by_source noEnvWorld rfl).1
      { id := "rec1", clientId := some "A", environment := none
        redirectUri := some "https://r", tenantId := none, brandCode := none
        isActive := true } (by decide) (by decide)
    simpa using h,
   by
    have h := (getCredentials_env_default_by_source varsOnlyWorld rfl).2
      varsNoEnv rfl (by decide) (by decide)
    simpa using h⟩

/-- Claim C6: the code at its failing input.  In standalone mode a
saveSetupConfig succeeds and writes the configuration to local fallback
storage, yet the subsequent getCredentials returns none: its standalone
localStorage branch sits behind an early standalone return and can never
run, so the saved clientId, environment and redirectUri are not resolved. -/
theorem standalone_roundtrip_returns_none :
    (saveSetupConfig standaloneWorld validConfig).1 = .ok (.rawConfig validConfig) ∧
    (saveSetupConfig standaloneWorld validConfig).2.localConfig = some validConfig ∧
    getCredentials (saveSetupConfig standaloneWorld validConfig).2 = none ∧
    (credsOfLocal validConfig).clientId = some "A" := by
  decide

/-- Claim C7: expiry boundary.  With the five-minute buffer, the token is
expired exactly from 300 seconds before expiresAt on (true at expiresAt
minus 300 s, false at expiresAt minus 301 s), and in general whenever now is
at or past expiresAt minus the buffer; the API helper never reports an
authenticated session once now reaches the stored expiry (its skew buffer
is zero). -/
theorem expiry_boundary :
    (∀ now : Int, isTokenExpired now (now + 300 * 1000) = true) ∧
    (∀ now : Int, isTokenExpired now (now + 301 * 1000) = false) ∧
    (∀ now expiresAt : Int, now ≥ expiresAt - bufferTime →
      isTokenExpired now expiresAt = true) ∧
    (∀ (now e : Int) (s : ApiStore), s.tokenExpiry = some e →
      isAuthenticated now s = true → now < e) := by
  refine ⟨?_, ?_, ?_, ?_⟩
  · intro now
    simp [isTokenExpired, bufferTime]
  · intro now
    simp [isTokenExpired, bufferTime]
  · intro now expiresAt h
    simpa [isTokenExpired, bufferTime] using h
  · intro now e s hse ha
    simp [isAuthenticated, hse] at ha
    exact ha.2

/-- Witness for the C7 theorem at concrete times. -/
theorem expiry_boundary_witness :
    isTokenExpired 0 bufferTime = true ∧ (0 : Int) < 1000 :=
  ⟨expiry_boundary.2.2.1 0 bufferTime (by decide),
   expiry_boundary.2.2.2 0 1000 { accessToken := some "t", tokenExpiry := some 1000 }
     rfl (by decide)⟩

/-- Claim C8: checkConnection decision tree.  A stored unexpired session
shows connected with zero token-endpoint calls; an absent or expired session
with a stored refresh token leads to exactly one token-endpoint call
whatever the endpoint answers; with neither, the controller shows
disconnected with zero calls and an unchanged store. -/
theorem checkConnection_decision_tree :
    ∀ (now : Int) (st : AuthStore) (fr : FetchResult),
      (∀ s, st.session = some s → sessionExpired now s = false →
        checkConnection now st fr =
          { status := .connected, tokenCalls := 0, store := st }) ∧
      ((st.session = none ∨ ∀ s, st.session = some s → sessionExpired now s = true) →
        isTruthy st.refreshToken = true →
        (checkConnection now st fr).tokenCalls = 1) ∧
      ((st.session = none ∨ ∀ s, st.session = some s → sessionExpired now s = true) →
        isTruthy st.refreshToken = false →
        checkConnection now st fr =
          { status := .disconnected, tokenCalls := 0, store := st }) := by
  intro now st fr
  refine ⟨?_, ?_, ?_⟩
  · intro s hs hexp
    simp [checkConnection, hs, hexp]
  · intro habs htr
    cases hs : st.session with
    | none =>
      cases fr <;> simp [checkConnection, refreshAccessToken, hs, htr]
      case response status body => cases body <;> simp [htr]
    | some s =>
      have hexp : sessionExpired now s = true := by
        cases habs with
        | inl h => rw [hs] at h; cases h
        | inr h => exact h s hs
      cases fr <;> simp [checkConnection, refreshAccessToken, hs, hexp, htr]
      case response status body => cases body <;> simp [htr]
  · intro habs htr
    cases hs : st.session with
    | none => simp [checkConnection, hs, htr]
    | some s =>
      have hexp : sessionExpired now s = true := by
        cases habs with
        | inl h => rw [hs] at h; cases h
        | inr h => exact h s hs
      simp [checkConnection, hs, hexp, htr]

/-- Witness for the C8 theorem at concrete stores. -/
theorem checkConnection_decision_tree_witness :
    checkConnection 0 freshSessionStore .networkError =
      { status := .connected, tokenCalls := 0, store := freshSessionStore } ∧
    (checkConnection 0 refreshOnlyStore .networkError).tokenCalls = 1 ∧
    checkConnection 0 emptyAuthStore .networkError =
      { status := .disconnected, tokenCalls := 0, store := emptyAuthStore } :=
  ⟨(checkConnection_decision_tree 0 freshSessionStore .networkError).1 _ rfl (by decide),
   (checkConnection_decision_tree 0 refreshOnlyStore .networkError).2.1 (Or.inl rfl) (by decide),
   (checkConnection_decision_tree 0 emptyAuthStore .networkError).2.2 (Or.inl rfl) (by decide)⟩

/-- Claim C9 counterexample: with a stored but expired access token (so no
valid session exists) the request guard still issues the network call with
the Bearer header, and a caller-supplied Authorization header replaces the
stored-token Bearer header on a request that proceeds. -/
theorem request_ignores_expiry_counterexample :
    isAuthenticated 1000 expiredApiStore = false ∧
    request expiredApiStore [] =
      .fetchIssued [("Authorization", "Bearer t1"), ("Content-Type", "application/json")] ∧
    request expiredApiStore [("Authorization", "Basic x")] =
      .fetchIssued [("Content-Type", "application/json"), ("Authorization", "Basic x")] := by
  decide

/-- Claim C9 amended: a provider API request fails with the authentication
error and no network request exactly when no non-empty access token string
is stored — the stored expiry is never consulted — and every request that
proceeds without a caller-supplied Authorization override carries the
stored token as a Bearer authorization header. -/
theorem request_gate_presence_only :
    ∀ (s : ApiStore) (hdrs : List (String × String)),
      ((request s hdrs = .authError) ↔ isTruthy s.accessToken = false) ∧
      (∀ tok, s.accessToken = some tok → tok ≠ "" →
        (hdrs.map Prod.fst).contains "Authorization" = false →
        request s hdrs =
          .fetchIssued (mergeHeaders
            [("Authorization", "Bearer " ++ tok), ("Content-Type", "application/json")] hdrs) ∧
        ("Authorization", "Bearer " ++ tok) ∈ mergeHeaders
          [("Authorization", "Bearer " ++ tok), ("Content-Type", "application/json")] hdrs) := by
  intro s hdrs
  constructor
  · cases hst : s.accessToken with
    | none => simp [request, hst, isTruthy]
    | some tok =>
      by_cases he : tok = ""
      · simp [request, hst, he, isTruthy]
      · simp [request, hst, he, isTruthy]
  · intro tok hst he hna
    refine ⟨by simp [request, hst, he], ?_⟩
    have hmem : "Authorization" ∉ hdrs.map Prod.fst := by
      simpa using hna
    simp [mergeHeaders, List.mem_filter, hna]
    left
    intro x hx
    exact hmem (List.mem_map_of_mem Prod.fst hx)

/-- Witness for the amended C9 theorem at concrete stores. -/
theorem request_gate_presence_only_witness :
    request noTokenApiStore [] = .authError ∧
    request expiredApiStore [] =
      .fetchIssued (mergeHeaders
        [("Authorization", "Bearer " ++ "t1"), ("Content-Type", "application/json")] []) :=
  ⟨(request_gate_presence_only noTokenApiStore []).1.mpr rfl,
   ((request_gate_presence_only expiredApiStore []).2 "t1" rfl (by decide) (by decide)).1⟩

/-- Claim C10: in standalone mode saveSetupConfig performs neither the
permission check nor any field validation: for every world with any
permission data and every configuration input, a successful localStorage
write stores the input verbatim and returns it unchanged, and the call
throws exactly when the localStorage write itself fails, leaving everything
unchanged. -/
theorem saveSetupConfig_standalone_verbatim :
    ∀ (w : World) (c : ConfigInput), w.standalone = true →
      (w.localWriteOk = true →
        saveSetupConfig w c = (.ok (.rawConfig c), { w with localConfig := some c })) ∧
      (w.localWriteOk = false →
        saveSetupConfig w c = (.error .localStorageFailed, w)) := by
  intro w c hs
  constructor <;> intro h <;> simp [saveSetupConfig, hs, h]

/-- Witness for the C10 theorem: a config failing every embedded-mode
validation rule is still stored verbatim and returned in standalone mode. -/
theorem saveSetupConfig_standalone_verbatim_witness :
    saveSetupConfig standaloneWorld junkConfig =
      (.ok (.rawConfig junkConfig), { standaloneWorld with localConfig := some junkConfig }) :=
  (saveSetupConfig_standalone_verbatim standaloneWorld junkConfig rfl).1 rfl
